import Mathlib

/-!
# CloudScribe — verification of the synchronization core

Shallow embedding of the CloudScribe server source
(`src/server/src/{models,database,background,main,dependencies}.py`) and proofs
about the claims on its specification.

Conventions of the embedding:
* Python `str` is `String`, `None`-able strings are `Option String`.
* Python `dict`s used as the persisted Document are association lists
  `List (String × α)`; Python dict semantics (unique keys, insertion order,
  assignment to an existing key updates in place, a new key is appended at the
  end, deletion keeps the order of the others) are mirrored by `dictSet` /
  `dictDel` / `dictGet?` below.
* The serialized dictionaries produced by the models' `to_dict` methods always
  contain every key that method emits, so each is embedded as a structure
  (`UserDict`, `JournalDict`, `NoteDict`) whose fields are exactly the keys the
  corresponding Python `to_dict` writes.  String keys that the Python
  `from_dict` would default to `""` when absent never are absent on such
  dictionaries.
-/

/-- `models.py` `User` (pydantic model): id, username, keyphrase, created,
modified (default `None`). -/
structure User where
  id : String
  username : String
  keyphrase : String
  created : String
  modified : Option String := none
deriving Repr, DecidableEq

/-- The dictionary `User.to_dict` produces: keys id, username, keyphrase,
created, modified. -/
structure UserDict where
  id : String
  username : String
  keyphrase : String
  created : String
  modified : Option String
deriving Repr, DecidableEq

/-- `models.py` `User.to_dict`. -/
def User.to_dict (u : User) : UserDict :=
  { id := u.id, username := u.username, keyphrase := u.keyphrase,
    created := u.created, modified := u.modified }

/-- `models.py` `User.from_dict`, restricted to dictionaries carrying every key
(the image of `to_dict`); each field is `data.get(key, default)`, and since the
key is present the stored value is taken. -/
def User.from_dict (d : UserDict) : User :=
  { id := d.id, username := d.username, keyphrase := d.keyphrase,
    created := d.created, modified := d.modified }

/-- `models.py` `Note` (pydantic model). -/
structure Note where
  id : String
  title : String
  content : String
  created : String
  modified : Option String := none
  tags : List String := []
deriving Repr, DecidableEq

/-- The dictionary `Note.to_dict` produces: keys id, title, content, created,
modified, tags. -/
structure NoteDict where
  id : String
  title : String
  content : String
  created : String
  modified : Option String
  tags : List String
deriving Repr, DecidableEq

/-- `models.py` `Note.to_dict`. -/
def Note.to_dict (n : Note) : NoteDict :=
  { id := n.id, title := n.title, content := n.content, created := n.created,
    modified := n.modified, tags := n.tags }

/-- `models.py` `Note.from_dict`, restricted to dictionaries carrying every
key. -/
def Note.from_dict (d : NoteDict) : Note :=
  { id := d.id, title := d.title, content := d.content, created := d.created,
    modified := d.modified, tags := d.tags }

/-- `models.py` `Journal` (pydantic model); `description` and `modified`
default to `None`, `notes` to `[]`. -/
structure Journal where
  id : String
  authorID : String
  title : String
  description : Option String := none
  created : String
  modified : Option String := none
  notes : List Note := []
deriving Repr, DecidableEq

/-- The dictionary `Journal.to_dict` produces.  `to_dict` (models.py lines
92-100) emits the keys id, authorID, title, description, created, notes — and
**no** `modified` key — so this structure has no `modified` field. -/
structure JournalDict where
  id : String
  authorID : String
  title : String
  description : Option String
  created : String
  notes : List NoteDict
deriving Repr, DecidableEq

/-- `models.py` `Journal.to_dict`: serializes every field except `modified`. -/
def Journal.to_dict (j : Journal) : JournalDict :=
  { id := j.id, authorID := j.authorID, title := j.title,
    description := j.description, created := j.created,
    notes := j.notes.map Note.to_dict }

/-- `models.py` `Journal.from_dict`, restricted to dictionaries carrying every
key `to_dict` emits.  It never passes `modified` to the constructor, so the
result's `modified` is the pydantic default `none`; every element of `notes`
produced by `to_dict` is a dictionary, so the `isinstance(nd, dict)` filter
keeps them all. -/
def Journal.from_dict (d : JournalDict) : Journal :=
  { id := d.id, authorID := d.authorID, title := d.title,
    description := d.description, created := d.created,
    modified := none,
    notes := d.notes.map Note.from_dict }

/-- `models.py` `UserCreate` request model. -/
structure UserCreate where
  username : String
  keyphrase : String
deriving Repr, DecidableEq

/-- `models.py` `UserInfo` (the desensitised view of a `User`). -/
structure UserInfo where
  id : String
  username : String
  created : String
  modified : Option String := none
deriving Repr, DecidableEq

/-- `models.py` `User.desensitised`. -/
def User.desensitised (u : User) : UserInfo :=
  { id := u.id, username := u.username, created := u.created,
    modified := u.modified }

/-- `models.py` `UserUpdate` request model. -/
structure UserUpdate where
  username : Option String := none
  keyphrase : Option String := none
deriving Repr, DecidableEq

/-- `models.py` `User.update`: applies the changed fields, stamps `modified`
with the current time when anything changed, and reports whether it did.
The impure `datetime.now` is passed in as `now`. -/
def User.update (u : User) (info : UserUpdate) (now : String) : Bool × User :=
  let (changes₁, u₁) :=
    match info.username with
    | some uname => if uname ≠ u.username then (true, { u with username := uname }) else (false, u)
    | none => (false, u)
  let (changes₂, u₂) :=
    match info.keyphrase with
    | some kp => if kp ≠ u₁.keyphrase then (true, { u₁ with keyphrase := kp }) else (changes₁, u₁)
    | none => (changes₁, u₁)
  if changes₂ then (true, { u₂ with modified := some now }) else (false, u₂)

section PythonDict

variable {α : Type}

/-- Python `d[k] = v` on a dict with unique keys: update in place if the key
exists (keeping its position), else append at the end. -/
def dictSet (l : List (String × α)) (k : String) (v : α) : List (String × α) :=
  match l with
  | [] => [(k, v)]
  | (k', v') :: rest => if k' = k then (k, v) :: rest else (k', v') :: dictSet rest k v

/-- Python `del d[k]`: remove the entry, keeping the order of the others. -/
def dictDel (l : List (String × α)) (k : String) : List (String × α) :=
  l.filter (fun p => p.1 ≠ k)

/-- Python `d.get(k)` / `k in d` support. -/
def dictGet? (l : List (String × α)) (k : String) : Option α :=
  (l.find? (fun p => p.1 == k)).map (fun p => p.2)

/-- Python `k in d`. -/
def dictHasKey (l : List (String × α)) (k : String) : Bool :=
  (l.find? (fun p => p.1 == k)).isSome

end PythonDict

/-!
## The Document and the `ScribeDB` cache (`database.py`)

`ScribeDB.fragment.data` is the single in-memory Document, a JSON object whose
top-level keys of interest are `"users"` and `"journals"`, each mapping entity
id to serialized entity.  In every place the code reads one of these keys it
treats a missing key and a non-dict value identically (`deserialized_journals`
lines 162-163, `derialized_users` lines 175-176, `delete_user` line 220,
`delete_journal` line 306 return early; `save_user` lines 205-209 and
`save_journal` lines 291-295 reset the key to `{}`), so both situations are
embedded as `none`.
-/

/-- The Document held in `ScribeDB.fragment.data`. -/
structure Doc where
  users : Option (List (String × UserDict)) := none
  journals : Option (List (String × JournalDict)) := none
deriving Repr, DecidableEq

/-- The `"users"` collection, `[]` when absent or not a dict. -/
def usersOf (d : Doc) : List (String × UserDict) := d.users.getD []

/-- The `"journals"` collection, `[]` when absent or not a dict. -/
def journalsOf (d : Doc) : List (String × JournalDict) := d.journals.getD []

/-- The errors `ScribeDB` raises.  The code raises plain `Exception`s carrying
conventional `"... ERROR: ..."` messages; the spec names them (§7):
`notOperational` is `"Database not operational."` (raised by `refresh_local`
and `write`), `validation` is `"SCRIBEDB SAVE_JOURNAL ERROR: AuthorID does not
correspond to any existing user."`. -/
inductive DBError where
  | notOperational
  | validation
deriving Repr, DecidableEq

/-- The mutable class state of `ScribeDB` relevant to the Document operations:
the `_operational` flag and the fragment's current local Document.  States
embedded here have a fragment object present (as after `setup` has been
entered); `_operational` is `true` exactly when `setup` has completed its
initial read. -/
structure ScribeState where
  operational : Bool
  data : Doc
deriving Repr, DecidableEq

instance {ε α : Type} [DecidableEq ε] [DecidableEq α] : DecidableEq (Except ε α) := fun x y =>
  match x, y with
  | .ok a, .ok b => if h : a = b then .isTrue (by rw [h]) else .isFalse (by simp [h])
  | .error a, .error b => if h : a = b then .isTrue (by rw [h]) else .isFalse (by simp [h])
  | .ok _, .error _ => .isFalse (by simp)
  | .error _, .ok _ => .isFalse (by simp)

/-- Result of one `ScribeDB` call: the returned value or raised error, the
class state afterwards, and the Documents pushed to the remote store by the
call (in order) — empty exactly when no remote write occurred. -/
structure OpResult (α : Type) where
  result : Except DBError α
  state : ScribeState
  writes : List Doc
deriving Repr, DecidableEq

namespace ScribeDB

/-- Modelled from the spec: `CloudFragment.write` / `writeWS`
(`src/server/src/client.py`, imported by `database.py` but not included under
`src/`) — §6 gives the collaborator interface `write(doc: Document) -> Ok |
Error`, and §8's round-trip property (`write(d); read() == d`) makes a
successful write install `d` as the store's, and hence the fragment's, current
Document.  Only the success path is modelled; theorems below address it. -/
def fragmentWrite (s : ScribeState) (d : Doc) : ScribeState × List Doc :=
  ({ s with data := d }, [d])

/-- `database.py` `ScribeDB.write` (lines 131-150): raises when not
operational, defaults the payload to the current local Document, then pushes it
through the fragment (HTTP `write` or stream `writeWS`; both transports carry
the same Document semantics) and returns `True`. -/
def write (s : ScribeState) (data? : Option Doc) : OpResult Bool :=
  if s.operational = false then ⟨.error .notOperational, s, []⟩
  else
    let data := data?.getD s.data
    let (s', ws) := fragmentWrite s data
    ⟨.ok true, s', ws⟩

/-- `database.py` `ScribeDB.refresh_local` (lines 113-129): raises when not
operational, else pulls the remote Document into the local copy (via the
fragment's `read` / `readWS`; the remote Document is passed in as `remote`)
and returns `True`. -/
def refresh_local (s : ScribeState) (remote : Doc) : OpResult Bool :=
  if s.operational = false then ⟨.error .notOperational, s, []⟩
  else ⟨.ok true, { s with data := remote }, []⟩

/-- `database.py` `ScribeDB.deserialized_journals` (lines 157-168): deep-copies
the Document and deserializes every entry of `"journals"` in order; `[]` when
the key is absent or not a dict.  No operational check is performed. -/
def deserialized_journals (d : Doc) : List Journal :=
  (journalsOf d).map (fun p => Journal.from_dict p.2)

/-- `database.py` `ScribeDB.derialized_users` (lines 170-181, name as in the
source): deserializes every entry of `"users"` in order.  No operational check
is performed. -/
def derialized_users (d : Doc) : List User :=
  (usersOf d).map (fun p => User.from_dict p.2)

/-- `database.py` `ScribeDB.retrieve_user` (lines 183-190): first deserialized
user with the given id. -/
def retrieve_user (d : Doc) (user_id : String) : Option User :=
  (derialized_users d).find? (fun user => user.id == user_id)

/-- `database.py` `ScribeDB.retrieve_user_by_username` (lines 192-199). -/
def retrieve_user_by_username (d : Doc) (username : String) : Option User :=
  (derialized_users d).find? (fun user => user.username == username)

/-- `database.py` `ScribeDB.retrieve_journal` (lines 240-247). -/
def retrieve_journal (d : Doc) (journal_id : String) : Option Journal :=
  (deserialized_journals d).find? (fun journal => journal.id == journal_id)

/-- `database.py` `ScribeDB.retrieve_journal_with_author` (lines 249-258):
`None` when the journal is missing or its `authorID` mismatches. -/
def retrieve_journal_with_author (d : Doc) (journal_id authorID : String) :
    Option Journal :=
  match retrieve_journal d journal_id with
  | none => none
  | some journal => if journal.authorID ≠ authorID then none else some journal

/-- `database.py` `ScribeDB.retrieve_note` (lines 260-270). -/
def retrieve_note (d : Doc) (journal_id note_id : String) : Option Note :=
  match retrieve_journal d journal_id with
  | none => none
  | some journal => journal.notes.find? (fun note => note.id == note_id)

/-- `ScribeDB.retrieve_user` as a call on the class state: the Python method
reads `ScribeDB.fragment.data` directly and never consults `_operational`, so
it succeeds (and reads the Document) in every state where the fragment
exists. -/
def retrieve_user_op (s : ScribeState) (user_id : String) :
    OpResult (Option User) :=
  ⟨.ok (retrieve_user s.data user_id), s, []⟩

/-- `ScribeDB.retrieve_journal` as a call on the class state; like
`retrieve_user_op`, no operational check exists in the source. -/
def retrieve_journal_op (s : ScribeState) (journal_id : String) :
    OpResult (Option Journal) :=
  ⟨.ok (retrieve_journal s.data journal_id), s, []⟩

/-- `ScribeDB.retrieve_note` as a call on the class state; no operational
check exists in the source. -/
def retrieve_note_op (s : ScribeState) (journal_id note_id : String) :
    OpResult (Option Note) :=
  ⟨.ok (retrieve_note s.data journal_id note_id), s, []⟩

/-- `database.py` `ScribeDB.save_user` (lines 201-214): deep-copies the
Document, resets `"users"` to `{}` when absent or not a dict, stores
`user.to_dict()` under `user.id`, and writes the whole Document back (the
operational check lives inside `write`).  Returns `True`. -/
def save_user (s : ScribeState) (user : User) : OpResult Bool :=
  let users := (usersOf s.data)
  let data' : Doc := { s.data with users := some (dictSet users user.id user.to_dict) }
  write s (some data')

/-- `database.py` `ScribeDB.delete_user` (lines 216-238): `False` (no write)
when `"users"` is absent/not a dict or the id is unknown; otherwise removes
the user, removes every journal whose stored `authorID` equals the deleted id
(`journalDict.get("authorID", "")`), writes the Document back and returns
`True`. -/
def delete_user (s : ScribeState) (user_id : String) : OpResult Bool :=
  match s.data.users with
  | none => ⟨.ok false, s, []⟩
  | some users =>
    if dictHasKey users user_id = false then ⟨.ok false, s, []⟩
    else
      let users' := dictDel users user_id
      let data' : Doc :=
        match s.data.journals with
        | none => { s.data with users := some users' }
        | some js =>
          { s.data with
            users := some users'
            journals := some (js.filter (fun p => p.2.authorID ≠ user_id)) }
      write s (some data')

/-- `database.py` `ScribeDB.save_journal` (lines 284-300): raises
`ValidationError` — before touching the Document — when `journal.authorID` is
not the id of any deserialized user; otherwise deep-copies the Document,
resets `"journals"` to `{}` when absent or not a dict, stores
`journal.to_dict()` under `journal.id`, writes back and returns `True`. -/
def save_journal (s : ScribeState) (journal : Journal) : OpResult Bool :=
  if ((derialized_users s.data).map (fun user => user.id)).contains journal.authorID = false then
    ⟨.error .validation, s, []⟩
  else
    let js := journalsOf s.data
    let data' : Doc := { s.data with journals := some (dictSet js journal.id journal.to_dict) }
    write s (some data')

/-- `database.py` `ScribeDB.delete_journal` (lines 302-315): takes exactly one
argument, the journal id; no ownership check of any kind.  `False` when the
collection or the id is missing, else delete, write back, `True`. -/
def delete_journal (s : ScribeState) (journal_id : String) : OpResult Bool :=
  match s.data.journals with
  | none => ⟨.ok false, s, []⟩
  | some js =>
    if dictHasKey js journal_id = false then ⟨.ok false, s, []⟩
    else write s (some { s.data with journals := some (dictDel js journal_id) })

/-- The loop of `save_note` (lines 323-331): replace the first note carrying
the same id in place, else append at the end. -/
def upsertNote (notes : List Note) (n : Note) : List Note :=
  match notes with
  | [] => [n]
  | m :: rest => if m.id = n.id then n :: rest else m :: upsertNote rest n

/-- The journal-resolution step shared by `save_note` and `save_entries`
(lines 319 and 337): unauthenticated lookup when no `authorID` is supplied,
owner-scoped lookup otherwise. -/
def resolveJournal (d : Doc) (journal_id : String) (authorID : Option String) :
    Option Journal :=
  match authorID with
  | none => retrieve_journal d journal_id
  | some aid => retrieve_journal_with_author d journal_id aid

/-- `database.py` `ScribeDB.save_note` (lines 317-333): resolve the owning
journal (`False`, untouched Document, when that fails), upsert the note by id
into its note list, then persist through `save_journal`. -/
def save_note (s : ScribeState) (note : Note) (journal_id : String)
    (authorID : Option String := none) : OpResult Bool :=
  match resolveJournal s.data journal_id authorID with
  | none => ⟨.ok false, s, []⟩
  | some journal => save_journal s { journal with notes := upsertNote journal.notes note }

/-- `database.py` `ScribeDB.save_entries` (lines 335-342): resolve the owning
journal (`False`, untouched Document, when that fails), replace its whole note
list, persist through `save_journal`. -/
def save_entries (s : ScribeState) (journal_id : String) (notes : List Note)
    (authorID : Option String := none) : OpResult Bool :=
  match resolveJournal s.data journal_id authorID with
  | none => ⟨.ok false, s, []⟩
  | some journal => save_journal s { journal with notes := notes }

end ScribeDB

/-!
## Triggers, `AsyncProcessor` and `ThreadManager` (`background.py`)
-/

/-- `background.py` `Trigger`: a string-tagged record.  `customAPTrigger` is
an opaque caller-supplied APScheduler trigger, `triggerDate` an absolute
timestamp; both are embedded opaquely.  Construct only through
`Trigger.make`. -/
structure Trigger where
  type : String
  immediate : Bool
  seconds : Nat
  minutes : Nat
  hours : Nat
  triggerDate : Option String
  customAPTrigger : Option Nat
deriving Repr, DecidableEq

/-- `background.py` `Trigger.__init__` (lines 30-37): `immediate` is set when
`seconds`, `minutes`, `hours` and `triggerDate` are all unset (`None`), and
each unset numeric component defaults to `0`.  The Python defaults are
`type='interval'` with everything else `None`. -/
def Trigger.make (type : String := "interval") (seconds : Option Nat := none)
    (minutes : Option Nat := none) (hours : Option Nat := none)
    (triggerDate : Option String := none) (customAPTrigger : Option Nat := none) :
    Trigger :=
  { type := type
    immediate := seconds == none && minutes == none && hours == none && triggerDate == none
    seconds := seconds.getD 0
    minutes := minutes.getD 0
    hours := hours.getD 0
    triggerDate := triggerDate
    customAPTrigger := customAPTrigger }

/-- The job that one `AsyncProcessor.addJob` call registers with the
underlying APScheduler (`background.py` lines 97-117): a custom-trigger job,
an undelayed one-shot job, a one-shot job at an absolute date, or a recurring
interval job carrying the three period components separately. -/
inductive JobKind where
  | custom (t : Nat)
  | immediate
  | date (d : Option String)
  | interval (seconds minutes hours : Nat)
deriving Repr, DecidableEq

/-- `background.py` `AsyncProcessor.addJob` (lines 97-117): defaults a missing
trigger to `Trigger()`, then dispatches — custom trigger first, then the
`immediate` flag, then `type == "date"`, and every remaining trigger becomes an
interval job with the trigger's (already defaulted) components.  No branch
rejects anything: every call registers a job and returns its id. -/
def AsyncProcessor.addJob (trigger : Option Trigger := none) : JobKind :=
  let t := trigger.getD (Trigger.make)
  match t.customAPTrigger with
  | some c => .custom c
  | none =>
    if t.immediate then .immediate
    else if t.type == "date" then .date t.triggerDate
    else .interval t.seconds t.minutes t.hours

/-- Python stdlib `datetime.timedelta(seconds, minutes, hours)` expressed in
whole seconds — the arithmetic APScheduler's interval trigger applies to the
components `addJob` hands it (components accumulate: one minute is 60 seconds,
one hour 3600). -/
def timedeltaTotalSeconds (seconds minutes hours : Nat) : Nat :=
  seconds + 60 * minutes + 3600 * hours

/-- The effective firing period, in seconds, of a registered job: only
interval jobs recur. -/
def JobKind.periodSeconds : JobKind → Option Nat
  | .interval s m h => some (timedeltaTotalSeconds s m h)
  | _ => none

/-- One entry of `ThreadManager.data` (`background.py` lines 199-204): the
owned processor (embedded by its opaque instance id), its name, a free-text
source label and the creation timestamp. -/
structure ProcRecord where
  processor : Nat
  name : String
  source : String
  created : String
deriving Repr, DecidableEq

/-- The class state of `ThreadManager`: the named registry `data` and the
`defaultProcessor` pointer. -/
structure TMState where
  data : List (String × ProcRecord)
  defaultProcessor : Option Nat := none
deriving Repr, DecidableEq

namespace ThreadManager

/-- The duplicate-name message `ThreadManager.new` returns (line 196). -/
def duplicateNameMessage : String :=
  "ERROR: A thread with that name already exists. Name must be unique."

/-- `background.py` `ThreadManager.new` (lines 192-208): returns the error
string — before constructing any processor — when the name is already
registered, leaving the registry as it was; otherwise constructs a fresh
`AsyncProcessor` (its opaque instance id is passed in as `proc`, the clock as
`now`) and records it under the name.  The pair's second component is the
class state after the call. -/
def new (st : TMState) (name source : String) (proc : Nat) (now : String) :
    Except String Nat × TMState :=
  if dictHasKey st.data name then (.error duplicateNameMessage, st)
  else
    let entry : ProcRecord :=
      { processor := proc, name := name, source := source, created := now }
    (.ok proc, { st with data := dictSet st.data name entry })

/-- `background.py` `ThreadManager.getProcessorWithName` (lines 215-221). -/
def getProcessorWithName (st : TMState) (name : String) : Option Nat :=
  (dictGet? st.data name).map (fun rec => rec.processor)

end ThreadManager

/-!
## Route handlers (`main.py`, `dependencies.py`)

Only the handlers the claims reach are embedded.  FastAPI's dependency layer
(`dependencies.py` `authorised_user`) hands each handler an authenticated
`User`; the handlers below take that user as an argument.  `uuid4().hex` and
`datetime.now(...)` are impure and are passed in as `newId` / `now`.
-/

/-- An error escaping a route handler: an `HTTPException` raised with a status
code and detail, a `ScribeDB` exception propagating out (HTTP 500), a Python
`AttributeError` (HTTP 500), or a Python `TypeError` from a call with the
wrong number of arguments (HTTP 500). -/
inductive RouteError where
  | httpException (statusCode : Nat) (detail : String)
  | db (e : DBError)
  | attributeError (missing : String)
  | typeError
deriving Repr, DecidableEq

/-- CPython call semantics for a function declared with exactly one positional
parameter and no defaults: a call with any other number of positional
arguments raises `TypeError` before the callee's body runs. -/
def callUnary {α β : Type} (f : α → β) (args : List α) : Except RouteError β :=
  match args with
  | [a] => .ok (f a)
  | _ => .error .typeError

/-- `main.py` `create_user` (lines 36-49).  Its first statement,
`all_users = ScribeDB.deserialized_users()` (line 37), looks up an attribute
`ScribeDB` does not define — `database.py` line 171 spells the method
`derialized_users`, and no `deserialized_users` exists on the class — so
CPython raises `AttributeError` there, before the uniqueness check, the `User`
construction and the `save_user` call are ever reached; every request to this
endpoint fails with HTTP 500 and the Document is untouched. -/
def create_user_route (s : ScribeState) (_info : UserCreate) (_newId _now : String) :
    Except RouteError UserInfo × ScribeState :=
  (.error (.attributeError "deserialized_users"), s)

/-- `main.py` `update_user` (lines 116-125).  When a username change is
requested (line 117: `info.username` is a string differing from the current
username), line 118 evaluates `ScribeDB.deserialized_users()` — the same
missing attribute as in `create_user` — and raises `AttributeError` before
anything else happens.  Otherwise the handler applies `user.update` and, when
something changed, persists through `save_user`. -/
def update_user_route (s : ScribeState) (user : User) (info : UserUpdate)
    (now : String) : Except RouteError UserInfo × ScribeState :=
  let renameRequested : Bool :=
    match info.username with
    | some uname => user.username != uname
    | none => false
  if renameRequested then (.error (.attributeError "deserialized_users"), s)
  else
    let (changed, user') := User.update user info now
    if changed then
      match ScribeDB.save_user s user' with
      | ⟨.ok _, s', _⟩ => (.ok (User.desensitised user'), s')
      | ⟨.error e, s', _⟩ => (.error (.db e), s')
    else (.ok (User.desensitised user), s)

/-- `main.py` `delete_journal` route handler (lines 204-209): it calls
`ScribeDB.delete_journal(journal_id, user.id)` with two positional arguments,
while `database.py` line 303 declares `delete_journal(journal_id)` with a
single parameter — so the call raises `TypeError` (modelled by `callUnary`)
on every request, `ScribeDB.delete_journal`'s body never runs, and no journal
is ever deleted or HTTP 200 returned through this endpoint. -/
def delete_journal_route (s : ScribeState) (journal_id : String) (user : User) :
    Except RouteError (OpResult Bool) :=
  callUnary (fun jid => ScribeDB.delete_journal s jid) [journal_id, user.id]

/-- A concrete journal carrying a `modified` timestamp. -/
def journalWithModified : Journal :=
  { id := "j1", authorID := "u1", title := "Trip", description := some "desc",
    created := "2024-01-01T00:00:00+00:00",
    modified := some "2024-02-01T00:00:00+00:00", notes := [] }
/-- The `Trigger('interval')` with every period component unset. -/
def zeroIntervalTrigger : Trigger := Trigger.make "interval" none none none none none
/-- A registry that already holds an entry named `"default"` owned by
processor `1`. -/
def registryWithDefault : TMState :=
  { data := [("default",
      { processor := 1, name := "default", source := "main.py",
        created := "2024-01-01T00:00:00+00:00" })],
    defaultProcessor := some 1 }
/-- A concrete user. -/
def aliceUser : User :=
  { id := "u1", username := "alice", keyphrase := "k",
    created := "2024-01-01T00:00:00+00:00", modified := none }
/-- A concrete journal authored by `aliceUser`. -/
def journalByAlice : Journal :=
  { id := "j1", authorID := "u1", title := "Trip", description := none,
    created := "2024-01-02T00:00:00+00:00", modified := none, notes := [] }
/-- A concrete journal whose `authorID` matches no user. -/
def journalByGhost : Journal :=
  { id := "j2", authorID := "zz", title := "Ghost", description := none,
    created := "2024-01-02T00:00:00+00:00", modified := none, notes := [] }
/-- A Document holding exactly `aliceUser` and `journalByAlice`. -/
def docAlice : Doc :=
  { users := some [("u1", User.to_dict aliceUser)],
    journals := some [("j1", Journal.to_dict journalByAlice)] }
/-- The cache state after a completed setup, holding `docAlice`. -/
def stateAlice : ScribeState := { operational := true, data := docAlice }
/-- The cache state before setup has completed (the fragment object exists —
as it does from the first lines of `setup` on — but `_operational` is still
`False`), holding `docAlice`. -/
def offlineState : ScribeState := { operational := false, data := docAlice }
/-- A concrete note. -/
def noteA : Note :=
  { id := "n1", title := "Day 1", content := "Arrived.",
    created := "2024-01-03T00:00:00+00:00", modified := none, tags := ["travel"] }
/-- A second concrete note, distinct from `noteA`. -/
def noteB : Note :=
  { id := "n2", title := "Day 2", content := "Hiked.",
    created := "2024-01-04T00:00:00+00:00", modified := none, tags := [] }
/-- The authenticated user and update request for which `update_user`'s rename
branch is taken. -/
def renameAliceToBob : UserUpdate := { username := some "bob", keyphrase := none }
/-- A second concrete user. -/
def bobUser : User :=
  { id := "u2", username := "bob", keyphrase := "k2",
    created := "2024-01-01T00:00:00+00:00", modified := none }
/-- A concrete journal authored by `bobUser`. -/
def journalByBob : Journal :=
  { id := "j2", authorID := "u2", title := "Work", description := none,
    created := "2024-01-02T00:00:00+00:00", modified := none, notes := [] }
/-- A Document with two users, each owning one journal. -/
def docTwoUsers : Doc :=
  { users := some [("u1", User.to_dict aliceUser), ("u2", User.to_dict bobUser)],
    journals := some [("j1", Journal.to_dict journalByAlice),
                      ("j2", Journal.to_dict journalByBob)] }
/-- The operational state over `docTwoUsers`. -/
def stateTwoUsers : ScribeState := { operational := true, data := docTwoUsers }
/-- The Document `save_journal` writes: the journal serialized and stored
under its id. -/
def savedJournalDoc (d : Doc) (j : Journal) : Doc :=
  { d with journals := some (dictSet (journalsOf d) j.id (Journal.to_dict j)) }
/-- The same note id as `noteA` with edited content. -/
def noteA2 : Note :=
  { id := "n1", title := "Day 1 (rev)", content := "Arrived late.",
    created := "2024-01-03T00:00:00+00:00", modified := some "2024-01-05T00:00:00+00:00",
    tags := ["travel"] }
/-- A concrete journal already holding `noteA`, authored by `aliceUser`. -/
def journalWithNote : Journal :=
  { id := "j3", authorID := "u1", title := "Trip log", description := none,
    created := "2024-01-02T00:00:00+00:00", modified := none, notes := [noteA] }
/-- A Document holding `aliceUser` and `journalWithNote`. -/
def docWithNote : Doc :=
  { users := some [("u1", User.to_dict aliceUser)],
    journals := some [("j3", Journal.to_dict journalWithNote)] }
/-- The operational state over `docWithNote`. -/
def stateWithNote : ScribeState := { operational := true, data := docWithNote }

/-!
## Helper lemmas
-/
/-- Storing under key `k` makes `k` retrievable with the stored value. -/
theorem dictGet?_dictSet_self {α : Type} (l : List (String × α)) (k : String) (v : α) :
    dictGet? (dictSet l k v) k = some v := by
  induction l with
  | nil => simp [dictSet, dictGet?, List.find?]
  | cons p rest ih =>
    by_cases h : p.1 = k
    · simp [dictSet, h, dictGet?, List.find?]
    · have : dictSet (p :: rest) k v = p :: dictSet rest k v := by
        cases p with
        | mk k' v' => simp [dictSet, h]
      rw [this, dictGet?, List.find?_cons_of_neg _ (by simpa using h)]
      exact ih
/-- With keys `Nodup`, two entries sharing a key are one entry. -/
theorem entry_eq_of_keysNodup {α : Type} {l : List (String × α)}
    (h : (l.map Prod.fst).Nodup) {a b : String × α}
    (ha : a ∈ l) (hb : b ∈ l) (hk : a.1 = b.1) : a = b :=
  List.inj_on_of_nodup_map h ha hb hk
/-- A note with an id occurring nowhere in the list is appended at the end. -/
theorem upsertNote_of_fresh (notes : List Note) (n : Note)
    (h : ∀ m ∈ notes, m.id ≠ n.id) : ScribeDB.upsertNote notes n = notes ++ [n] := by
  induction notes with
  | nil => rfl
  | cons m rest ih =>
    have hm : m.id ≠ n.id := h m (by simp)
    simp only [ScribeDB.upsertNote, if_neg hm, List.cons_append, List.cons.injEq, true_and]
    exact ih (fun x hx => h x (by simp [hx]))
/-- A note whose id matches the entry `old` (and no entry before it) replaces
`old` in place: everything before and after keeps its position. -/
theorem upsertNote_replace (pre post : List Note) (old n : Note)
    (hpre : ∀ m ∈ pre, m.id ≠ n.id) (hold : old.id = n.id) :
    ScribeDB.upsertNote (pre ++ old :: post) n = pre ++ n :: post := by
  induction pre with
  | nil => simp [ScribeDB.upsertNote, hold]
  | cons m rest ih =>
    have hm : m.id ≠ n.id := hpre m (by simp)
    simp only [List.cons_append, ScribeDB.upsertNote, if_neg hm, List.cons.injEq, true_and]
    exact ih (fun x hx => hpre x (by simp [hx]))
/-- Round-trip for lists of notes through their serialized dictionaries. -/
theorem note_list_roundtrip (l : List Note) :
    (l.map Note.to_dict).map Note.from_dict = l := by
  induction l with
  | nil => rfl
  | cons n rest ih =>
    simp only [List.map_cons, ih]
    rfl
/-!
## Claims
-/
/-- **C3, counterexample** — serialization does *not* round-trip without
information loss: for the concrete journal `journalWithModified` (whose
`modified` field is set), deserializing its serialized form yields a different
journal, because `Journal.to_dict` emits no `modified` key and
`Journal.from_dict` therefore resets the field to `None`. -/
theorem journal_roundtrip_loses_modified :
    Journal.from_dict (Journal.to_dict journalWithModified) ≠ journalWithModified := by
  decide
/-- **C3, amended** — serialization round-trips without information loss for
`User` and `Note` (every field, `modified` and `tags` included, and the order
of a `Journal`'s notes is preserved), and for `Journal` in every field
*except* `modified`: `from_dict(to_dict(j))` equals `j` with `modified` reset
to `None` (so the round-trip is exact precisely for journals whose `modified`
is unset). -/
theorem serialization_roundtrip_amended :
    (∀ u : User, User.from_dict (User.to_dict u) = u) ∧
    (∀ n : Note, Note.from_dict (Note.to_dict n) = n) ∧
    (∀ j : Journal, Journal.from_dict (Journal.to_dict j) = { j with modified := none }) := by
  refine ⟨fun u => rfl, fun n => rfl, fun j => ?_⟩
  show Journal.from_dict (Journal.to_dict j) = { j with modified := none }
  unfold Journal.from_dict Journal.to_dict
  simp only [note_list_roundtrip]
/-- **C10** — `ScribeDB.delete_journal` takes exactly one argument (see its
declaration above: one `journal_id` parameter, no ownership check), while the
`DELETE /journal/{journal_id}` handler passes two; for every request the call
raises `TypeError`, `delete_journal`'s body never runs, and no journal is
deleted through this endpoint. -/
theorem delete_journal_route_always_type_error (s : ScribeState)
    (journal_id : String) (user : User) :
    delete_journal_route s journal_id user = .error .typeError :=
  rfl
/-- **C9, counterexample** — a zero-length interval trigger is *not* rejected:
`addJob` has no rejecting branch at all.  With all three components unset,
`Trigger.__init__` sets `immediate`, so `addJob` registers an undelayed
one-shot job; with the components explicitly `0`, `addJob` registers an
interval job whose components are all zero.  Either way a job is registered
and a job id returned. -/
theorem zero_interval_registers_job :
    AsyncProcessor.addJob (some zeroIntervalTrigger) = .immediate ∧
    AsyncProcessor.addJob
        (some (Trigger.make "interval" (some 0) (some 0) (some 0) none none)) =
      .interval 0 0 0 := by
  decide
/-- **C9, amended** — for an `'interval'` trigger with at least one of
`seconds`/`minutes`/`hours` supplied, `addJob` registers a recurring interval
job carrying the (defaulted-to-0) components, whose effective period is
`seconds + 60·minutes + 3600·hours` cumulatively; but a zero-length interval is
*not* invalid: with all three components unset the trigger is flagged
`immediate` and `addJob` registers a one-shot job instead (and explicitly zero
components register a zero-component interval job) — no submission is ever
rejected. -/
theorem interval_trigger_semantics (secs mins hrs : Option Nat) :
    ((secs == none && mins == none && hrs == none) = false →
      AsyncProcessor.addJob (some (Trigger.make "interval" secs mins hrs none none)) =
        .interval (secs.getD 0) (mins.getD 0) (hrs.getD 0) ∧
      (AsyncProcessor.addJob
          (some (Trigger.make "interval" secs mins hrs none none))).periodSeconds =
        some (secs.getD 0 + 60 * mins.getD 0 + 3600 * hrs.getD 0)) ∧
    ((secs == none && mins == none && hrs == none) = true →
      AsyncProcessor.addJob (some (Trigger.make "interval" secs mins hrs none none)) =
        .immediate) := by
  constructor
  · intro h
    have hjob :
        AsyncProcessor.addJob (some (Trigger.make "interval" secs mins hrs none none)) =
          .interval (secs.getD 0) (mins.getD 0) (hrs.getD 0) := by
      simp [AsyncProcessor.addJob, Trigger.make, h]
    exact ⟨hjob, by rw [hjob]; rfl⟩
  · intro h
    simp [AsyncProcessor.addJob, Trigger.make, h]
/-- **C9, witness** — the spec's own example: `seconds=5, minutes=1, hours=0`
yields an interval job with an effective period of 65 seconds. -/
theorem interval_trigger_semantics_witness :
    AsyncProcessor.addJob
        (some (Trigger.make "interval" (some 5) (some 1) none none none)) =
      .interval 5 1 0 ∧
    (AsyncProcessor.addJob
        (some (Trigger.make "interval" (some 5) (some 1) none none none))).periodSeconds =
      some 65 :=
  (interval_trigger_semantics (some 5) (some 1) none).1 (by decide)
/-- **C8** — creating a registry entry under a name that already exists fails
without side effects: `ThreadManager.new` returns the duplicate-name error
instead of a processor, the registry is exactly as before the call, and the
originally registered processor stays retrievable via
`getProcessorWithName`. -/
theorem registry_duplicate_name_rejected (st : TMState) (name source : String)
    (proc p0 : Nat) (now : String)
    (h : ThreadManager.getProcessorWithName st name = some p0) :
    ThreadManager.new st name source proc now =
      (.error ThreadManager.duplicateNameMessage, st) ∧
    ThreadManager.getProcessorWithName
        (ThreadManager.new st name source proc now).2 name = some p0 := by
  have hkey : dictHasKey st.data name = true := by
    unfold ThreadManager.getProcessorWithName dictGet? at h
    unfold dictHasKey
    cases hf : st.data.find? (fun p => p.1 == name) with
    | none => rw [hf] at h; simp at h
    | some q => simp
  have hnew : ThreadManager.new st name source proc now =
      (.error ThreadManager.duplicateNameMessage, st) := by
    unfold ThreadManager.new
    rw [hkey]
    rfl
  exact ⟨hnew, by rw [hnew]; exact h⟩
/-- **C8, witness** — a second `new` under the name `"default"` returns the
error message, leaves the registry untouched, and `"default"` still resolves to
the first processor. -/
theorem registry_duplicate_name_rejected_witness :
    ThreadManager.new registryWithDefault "default" "main.py" 2
        "2024-01-02T00:00:00+00:00" =
      (.error ThreadManager.duplicateNameMessage, registryWithDefault) ∧
    ThreadManager.getProcessorWithName
        (ThreadManager.new registryWithDefault "default" "main.py" 2
          "2024-01-02T00:00:00+00:00").2 "default" = some 1 :=
  registry_duplicate_name_rejected registryWithDefault "default" "main.py" 2 1
    "2024-01-02T00:00:00+00:00" (by decide)
/-- **C1** — `save_journal` on an operational cache: when `journal.authorID`
is not the id of any user in the current Document it raises `ValidationError`
with the Document exactly as before and no remote write at all; when the
`authorID` matches an existing user it returns `True`, stores the serialized
journal under its id, and pushes the updated Document to the remote store. -/
theorem save_journal_author_validation (s : ScribeState) (j : Journal)
    (hop : s.operational = true) :
    (((ScribeDB.derialized_users s.data).map (fun u => u.id)).contains j.authorID = false →
      ScribeDB.save_journal s j = ⟨.error .validation, s, []⟩) ∧
    (((ScribeDB.derialized_users s.data).map (fun u => u.id)).contains j.authorID = true →
      (ScribeDB.save_journal s j).result = .ok true ∧
      dictGet? (journalsOf (ScribeDB.save_journal s j).state.data) j.id = some j.to_dict ∧
      (ScribeDB.save_journal s j).writes = [(ScribeDB.save_journal s j).state.data]) := by
  constructor
  · intro h
    unfold ScribeDB.save_journal
    rw [h]
    rfl
  · intro h
    have hres : ScribeDB.save_journal s j =
        ⟨.ok true,
         { s with data :=
            { s.data with journals := some (dictSet (journalsOf s.data) j.id j.to_dict) } },
         [{ s.data with journals := some (dictSet (journalsOf s.data) j.id j.to_dict) }]⟩ := by
      unfold ScribeDB.save_journal ScribeDB.write ScribeDB.fragmentWrite
      rw [h]
      simp [hop]
    rw [hres]
    exact ⟨rfl, dictGet?_dictSet_self _ _ _, rfl⟩
/-- **C1, witness** — on the concrete Document holding only `aliceUser`:
saving `journalByGhost` (unknown author) raises `ValidationError` and leaves
everything untouched; saving `journalByAlice` succeeds and stores it under
`"j1"`. -/
theorem save_journal_author_validation_witness :
    ScribeDB.save_journal stateAlice journalByGhost = ⟨.error .validation, stateAlice, []⟩ ∧
    (ScribeDB.save_journal stateAlice journalByAlice).result = .ok true ∧
    dictGet? (journalsOf (ScribeDB.save_journal stateAlice journalByAlice).state.data)
        journalByAlice.id = some journalByAlice.to_dict :=
  ⟨(save_journal_author_validation stateAlice journalByGhost rfl).1 (by decide),
   ((save_journal_author_validation stateAlice journalByAlice rfl).2 (by decide)).1,
   ((save_journal_author_validation stateAlice journalByAlice rfl).2 (by decide)).2.1⟩
/-- **C4, counterexample** — the claim fails: with the cache not operational
(setup not completed), the entity accessor `retrieve_user` neither raises
`NotOperationalError` nor leaves the Document unread — it consults the
Document and returns the user found there.  The accessors
(`derialized_users`, `deserialized_journals`, `retrieve_*`) contain no
operational check whatsoever. -/
theorem accessor_reads_before_setup :
    offlineState.operational = false ∧
    ScribeDB.retrieve_user_op offlineState "u1" =
      ⟨.ok (some aliceUser), offlineState, []⟩ := by
  decide
/-- **C4, amended** — only `refresh_local` and `write` check the operational
flag directly.  Consequently: `refresh_local` and `write` themselves fail with
`NotOperationalError` before setup completes; the entity mutators
(`save_user`, `delete_user`, `save_journal`, `delete_journal`, `save_note`)
fail with `NotOperationalError` only on the paths that reach the inner
`write` — after having read (and locally copied) the Document — leaving the
Document unchanged with no remote write, while `save_journal` raises
`ValidationError` first when the `authorID` is unknown; and the entity
accessors perform no operational check at all and read the Document
normally. -/
theorem not_operational_gating_amended (s : ScribeState) (remote : Doc)
    (d? : Option Doc) (u : User) (j : Journal) (note : Note)
    (uid jid nid : String) (aid? : Option String)
    (hop : s.operational = false) :
    ScribeDB.refresh_local s remote = ⟨.error .notOperational, s, []⟩ ∧
    ScribeDB.write s d? = ⟨.error .notOperational, s, []⟩ ∧
    ScribeDB.save_user s u = ⟨.error .notOperational, s, []⟩ ∧
    (dictHasKey (usersOf s.data) uid = true →
      ScribeDB.delete_user s uid = ⟨.error .notOperational, s, []⟩) ∧
    (((ScribeDB.derialized_users s.data).map (fun x => x.id)).contains j.authorID = true →
      ScribeDB.save_journal s j = ⟨.error .notOperational, s, []⟩) ∧
    (((ScribeDB.derialized_users s.data).map (fun x => x.id)).contains j.authorID = false →
      ScribeDB.save_journal s j = ⟨.error .validation, s, []⟩) ∧
    (dictHasKey (journalsOf s.data) jid = true →
      ScribeDB.delete_journal s jid = ⟨.error .notOperational, s, []⟩) ∧
    (∀ journal : Journal, ScribeDB.resolveJournal s.data jid aid? = some journal →
      ((ScribeDB.derialized_users s.data).map (fun x => x.id)).contains journal.authorID = true →
      ScribeDB.save_note s note jid aid? = ⟨.error .notOperational, s, []⟩) ∧
    ScribeDB.retrieve_user_op s uid =
      ⟨.ok (ScribeDB.retrieve_user s.data uid), s, []⟩ ∧
    ScribeDB.retrieve_journal_op s jid =
      ⟨.ok (ScribeDB.retrieve_journal s.data jid), s, []⟩ ∧
    ScribeDB.retrieve_note_op s jid nid =
      ⟨.ok (ScribeDB.retrieve_note s.data jid nid), s, []⟩ := by
  refine ⟨?_, ?_, ?_, ?_, ?_, ?_, ?_, ?_, rfl, rfl, rfl⟩
  · simp [ScribeDB.refresh_local, hop]
  · simp [ScribeDB.write, hop]
  · simp [ScribeDB.save_user, ScribeDB.write, hop]
  · intro hk
    cases hu : s.data.users with
    | none => simp [usersOf, hu, dictHasKey, List.find?] at hk
    | some us =>
      have hk' : dictHasKey us uid = true := by simpa [usersOf, hu] using hk
      simp [ScribeDB.delete_user, hu, hk', ScribeDB.write, hop]
  · intro h
    unfold ScribeDB.save_journal
    rw [h]
    simp [ScribeDB.write, hop]
  · intro h
    unfold ScribeDB.save_journal
    rw [h]
    rfl
  · intro hk
    cases hj : s.data.journals with
    | none => simp [journalsOf, hj, dictHasKey, List.find?] at hk
    | some js =>
      have hk' : dictHasKey js jid = true := by simpa [journalsOf, hj] using hk
      simp [ScribeDB.delete_journal, hj, hk', ScribeDB.write, hop]
  · intro journal hres hcont
    unfold ScribeDB.save_note
    rw [hres]
    unfold ScribeDB.save_journal
    simp only []
    rw [show ({ journal with notes := ScribeDB.upsertNote journal.notes note } : Journal).authorID
          = journal.authorID from rfl, hcont]
    simp [ScribeDB.write, hop]
/-- **C4, witness** — every conjunct of the amended claim instantiated on the
concrete not-yet-operational state `offlineState`. -/
theorem not_operational_gating_amended_witness :
    ScribeDB.refresh_local offlineState docAlice =
      ⟨.error .notOperational, offlineState, []⟩ ∧
    ScribeDB.write offlineState none = ⟨.error .notOperational, offlineState, []⟩ ∧
    ScribeDB.save_user offlineState aliceUser =
      ⟨.error .notOperational, offlineState, []⟩ ∧
    ScribeDB.delete_user offlineState "u1" =
      ⟨.error .notOperational, offlineState, []⟩ ∧
    ScribeDB.save_journal offlineState journalByAlice =
      ⟨.error .notOperational, offlineState, []⟩ ∧
    ScribeDB.save_journal offlineState journalByGhost =
      ⟨.error .validation, offlineState, []⟩ ∧
    ScribeDB.delete_journal offlineState "j1" =
      ⟨.error .notOperational, offlineState, []⟩ ∧
    ScribeDB.retrieve_user_op offlineState "u1" =
      ⟨.ok (ScribeDB.retrieve_user offlineState.data "u1"), offlineState, []⟩ := by
  have h := not_operational_gating_amended offlineState docAlice none aliceUser
    journalByAlice noteA "u1" "j1" "n1" none rfl
  have h2 := not_operational_gating_amended offlineState docAlice none aliceUser
    journalByGhost noteA "u1" "j1" "n1" none rfl
  exact ⟨h.1, h.2.1, h.2.2.1, h.2.2.2.1 (by decide), h.2.2.2.2.1 (by decide),
    h2.2.2.2.2.2.1 (by decide), h.2.2.2.2.2.2.1 (by decide),
    h.2.2.2.2.2.2.2.2.1⟩
/-- **C7** — the snapshot→mutate→write cycle is *not* serialized (the only
lock, `ScribeDB._streamLock`, wraps just the raw `readWS`/`writeWS` transport
calls, and HTTP mode takes no lock at all), so two `save_note` calls for
distinct note ids of one journal may both snapshot the same Document before
either writes.  Modelling that interleaving on the concrete state
`stateAlice`: both calls return `True`, but after the second write lands last
the first note is gone — a lost update — whereas the serialized execution
(second call starting from the first call's state) keeps both notes. -/
theorem save_note_lost_update_interleaving :
    (ScribeDB.save_note stateAlice noteA "j1").result = .ok true ∧
    (ScribeDB.save_note stateAlice noteB "j1").result = .ok true ∧
    ScribeDB.retrieve_note (ScribeDB.save_note stateAlice noteB "j1").state.data
        "j1" "n1" = none ∧
    ScribeDB.retrieve_note (ScribeDB.save_note stateAlice noteB "j1").state.data
        "j1" "n2" = some noteB ∧
    ScribeDB.retrieve_note
        (ScribeDB.save_note (ScribeDB.save_note stateAlice noteA "j1").state
          noteB "j1").state.data "j1" "n1" = some noteA ∧
    ScribeDB.retrieve_note
        (ScribeDB.save_note (ScribeDB.save_note stateAlice noteA "j1").state
          noteB "j1").state.data "j1" "n2" = some noteB := by
  decide
/-- **C6** — the public user-creation and user-rename operations never reach
their uniqueness checks: `create_user` fails on its very first statement for
*every* request (duplicate username or not) with
`AttributeError("deserialized_users")`, leaving the Document untouched, and a
rename request through `update_user` fails the same way; so no user is ever
created or renamed through the public operations, and the intended
409-on-duplicate behaviour documented on both routes is unreachable. -/
theorem create_user_always_attribute_error (s : ScribeState) (info : UserCreate)
    (newId now : String) :
    create_user_route s info newId now =
      (.error (.attributeError "deserialized_users"), s) ∧
    update_user_route s aliceUser renameAliceToBob now =
      (.error (.attributeError "deserialized_users"), s) :=
  ⟨rfl, rfl⟩
/-- **C2** — on an operational cache whose Document is well-formed (entities
stored under their own ids, journal keys unique), deleting a present user id
returns `True` and cascades: the user is gone (`retrieve_user` is `None`),
no journal entry with that `authorID` remains, `retrieve_journal` is `None`
for every journal previously owned by the deleted user, and every journal
owned by someone else is kept, unchanged and in place. -/
theorem delete_user_cascades (s : ScribeState) (uid : String)
    (hop : s.operational = true)
    (huid : ∀ p ∈ usersOf s.data, p.2.id = p.1)
    (hjid : ∀ p ∈ journalsOf s.data, p.2.id = p.1)
    (hjkeys : ((journalsOf s.data).map Prod.fst).Nodup)
    (hpresent : dictHasKey (usersOf s.data) uid = true) :
    (ScribeDB.delete_user s uid).result = .ok true ∧
    ScribeDB.retrieve_user (ScribeDB.delete_user s uid).state.data uid = none ∧
    (∀ p ∈ journalsOf (ScribeDB.delete_user s uid).state.data, p.2.authorID ≠ uid) ∧
    (∀ jid : String,
      (∃ p ∈ journalsOf s.data, p.2.id = jid ∧ p.2.authorID = uid) →
      ScribeDB.retrieve_journal (ScribeDB.delete_user s uid).state.data jid = none) ∧
    (∀ p ∈ journalsOf s.data, p.2.authorID ≠ uid →
      p ∈ journalsOf (ScribeDB.delete_user s uid).state.data) := by
  cases hu : s.data.users with
  | none =>
    unfold usersOf at hpresent
    rw [hu] at hpresent
    simp [dictHasKey, List.find?] at hpresent
  | some us =>
    have hus : usersOf s.data = us := by
      unfold usersOf
      rw [hu]
      rfl
    have hk : dictHasKey us uid = true := by rw [hus] at hpresent; exact hpresent
    have husers_ne : ∀ p ∈ dictDel us uid, (User.from_dict p.2).id ≠ uid := by
      intro p hp
      have hmem := List.mem_filter.mp hp
      have hne : p.1 ≠ uid := by simpa using hmem.2
      have hid : p.2.id = p.1 := huid p (by rw [hus]; exact hmem.1)
      show p.2.id ≠ uid
      rw [hid]
      exact hne
    cases hjq : s.data.journals with
    | none =>
      have hdel : ScribeDB.delete_user s uid =
          ⟨.ok true,
           { operational := true, data := { users := some (dictDel us uid), journals := none } },
           [{ users := some (dictDel us uid), journals := none }]⟩ := by
        unfold ScribeDB.delete_user ScribeDB.write ScribeDB.fragmentWrite
        rw [hu, hjq]
        simp [hk, hop, hjq]
      rw [hdel]
      refine ⟨rfl, ?_, ?_, ?_, ?_⟩
      · show ((dictDel us uid).map (fun p => User.from_dict p.2)).find?
            (fun user => user.id == uid) = none
        rw [List.find?_eq_none]
        intro x hx
        obtain ⟨p, hp, rfl⟩ := List.mem_map.mp hx
        simpa using husers_ne p hp
      · intro p hp
        have hp' : p ∈ ([] : List (String × JournalDict)) := hp
        simp at hp'
      · intro jid hex
        obtain ⟨p, hp, _⟩ := hex
        rw [journalsOf, hjq] at hp
        simp at hp
      · intro p hp _
        rw [journalsOf, hjq] at hp
        simp at hp
    | some js =>
      have hjs : journalsOf s.data = js := by
        unfold journalsOf
        rw [hjq]
        rfl
      have hjid' : ∀ p ∈ js, p.2.id = p.1 := by rw [hjs] at hjid; exact hjid
      have hjkeys' : (js.map Prod.fst).Nodup := by rw [hjs] at hjkeys; exact hjkeys
      have hdel : ScribeDB.delete_user s uid =
          ⟨.ok true,
           { operational := true, data :=
              { users := some (dictDel us uid)
                journals := some (js.filter (fun p => p.2.authorID ≠ uid)) } },
           [{ users := some (dictDel us uid)
              journals := some (js.filter (fun p => p.2.authorID ≠ uid)) }]⟩ := by
        unfold ScribeDB.delete_user ScribeDB.write ScribeDB.fragmentWrite
        rw [hu, hjq]
        simp [hk, hop]
      rw [hdel]
      refine ⟨rfl, ?_, ?_, ?_, ?_⟩
      · show ((dictDel us uid).map (fun p => User.from_dict p.2)).find?
            (fun user => user.id == uid) = none
        rw [List.find?_eq_none]
        intro x hx
        obtain ⟨p, hp, rfl⟩ := List.mem_map.mp hx
        simpa using husers_ne p hp
      · intro p hp
        have hp' : p ∈ js.filter (fun q => q.2.authorID ≠ uid) := hp
        exact of_decide_eq_true (List.mem_filter.mp hp').2
      · intro jid hex
        obtain ⟨p, hp, hpid, hpauth⟩ := hex
        rw [hjs] at hp
        show ((js.filter (fun q => q.2.authorID ≠ uid)).map
            (fun q => Journal.from_dict q.2)).find? (fun journal => journal.id == jid) = none
        rw [List.find?_eq_none]
        intro x hx
        obtain ⟨q, hq, rfl⟩ := List.mem_map.mp hx
        have hqmem := List.mem_filter.mp hq
        have hqne : q.2.authorID ≠ uid := of_decide_eq_true hqmem.2
        simp only [beq_iff_eq]
        show ¬q.2.id = jid
        intro hqid
        have hkeyeq : q.1 = p.1 := by
          rw [← hjid' q hqmem.1, ← hjid' p hp, hqid, hpid]
        have hqp : q = p := entry_eq_of_keysNodup hjkeys' hqmem.1 hp hkeyeq
        rw [hqp] at hqne
        exact hqne hpauth
      · intro p hp hpne
        rw [hjs] at hp
        show p ∈ js.filter (fun q => q.2.authorID ≠ uid)
        exact List.mem_filter.mpr ⟨hp, decide_eq_true hpne⟩
/-- **C2, witness** — deleting `"u1"` from the two-user Document succeeds; the
user and their journal `"j1"` are gone, while `"j2"` (owned by `"u2"`) is kept
verbatim. -/
theorem delete_user_cascades_witness :
    (ScribeDB.delete_user stateTwoUsers "u1").result = .ok true ∧
    ScribeDB.retrieve_user (ScribeDB.delete_user stateTwoUsers "u1").state.data "u1" = none ∧
    ScribeDB.retrieve_journal (ScribeDB.delete_user stateTwoUsers "u1").state.data "j1" = none ∧
    ("j2", Journal.to_dict journalByBob) ∈
      journalsOf (ScribeDB.delete_user stateTwoUsers "u1").state.data := by
  have h := delete_user_cascades stateTwoUsers "u1" rfl (by decide) (by decide)
    (by decide) (by decide)
  exact ⟨h.1, h.2.1,
    h.2.2.2.1 "j1" ⟨("j1", Journal.to_dict journalByAlice), by decide, by decide, by decide⟩,
    h.2.2.2.2 ("j2", Journal.to_dict journalByBob) (by decide) (by decide)⟩
/-- **C5, amended** — `save_note` and `save_entries` on an operational cache
first resolve the owning journal (unauthenticated, or owner-scoped when an
`authorID` is supplied): when resolution fails — journal absent, or supplied
owner mismatching the journal's `authorID` — they return `False` with the
Document untouched and no remote write.  When it yields a journal (whose
`authorID` resolves to an existing user, as every journal saved through
`save_journal` does), both return `True` and store the journal back under its
id — `save_note` with the note upserted by id into the journal's note
sequence: a note whose id already occurs replaces the existing note at its
position, keeping the sequence length and every other note in place, and a
note with a fresh id is appended at the end.  `save_entries`, however, does
*not* upsert: it replaces the journal's note sequence wholesale with the
given list, dropping every existing note absent from it (see the
counterexample below). -/
theorem save_note_upsert (s : ScribeState) (note : Note) (entries : List Note)
    (jid : String) (aid? : Option String) (hop : s.operational = true) :
    (ScribeDB.resolveJournal s.data jid aid? = none →
      ScribeDB.save_note s note jid aid? = ⟨.ok false, s, []⟩ ∧
      ScribeDB.save_entries s jid entries aid? = ⟨.ok false, s, []⟩) ∧
    (∀ journal : Journal, ScribeDB.resolveJournal s.data jid aid? = some journal →
      ((ScribeDB.derialized_users s.data).map (fun u => u.id)).contains journal.authorID = true →
      (ScribeDB.save_note s note jid aid?).result = .ok true ∧
      dictGet? (journalsOf (ScribeDB.save_note s note jid aid?).state.data) journal.id =
        some (Journal.to_dict { journal with notes := ScribeDB.upsertNote journal.notes note }) ∧
      (∀ pre old post, journal.notes = pre ++ old :: post →
        (∀ m ∈ pre, m.id ≠ note.id) → old.id = note.id →
        ScribeDB.upsertNote journal.notes note = pre ++ note :: post ∧
        (ScribeDB.upsertNote journal.notes note).length = journal.notes.length) ∧
      ((∀ m ∈ journal.notes, m.id ≠ note.id) →
        ScribeDB.upsertNote journal.notes note = journal.notes ++ [note]) ∧
      (ScribeDB.save_entries s jid entries aid?).result = .ok true ∧
      dictGet? (journalsOf (ScribeDB.save_entries s jid entries aid?).state.data) journal.id =
        some (Journal.to_dict { journal with notes := entries })) := by
  constructor
  · intro h
    constructor
    · unfold ScribeDB.save_note
      rw [h]
    · unfold ScribeDB.save_entries
      rw [h]
  · intro journal hres hcont
    have hsj : ∀ notes' : List Note,
        ScribeDB.save_journal s { journal with notes := notes' } =
          ⟨.ok true,
           { s with data := savedJournalDoc s.data { journal with notes := notes' } },
           [savedJournalDoc s.data { journal with notes := notes' }]⟩ := by
      intro notes'
      unfold ScribeDB.save_journal ScribeDB.write ScribeDB.fragmentWrite savedJournalDoc
      rw [show ({ journal with notes := notes' } : Journal).authorID = journal.authorID from rfl,
        hcont]
      simp [hop]
    have hnote : ScribeDB.save_note s note jid aid? =
        ScribeDB.save_journal s { journal with notes := ScribeDB.upsertNote journal.notes note } := by
      unfold ScribeDB.save_note
      rw [hres]
    have hent : ScribeDB.save_entries s jid entries aid? =
        ScribeDB.save_journal s { journal with notes := entries } := by
      unfold ScribeDB.save_entries
      rw [hres]
    rw [hnote, hent, hsj (ScribeDB.upsertNote journal.notes note), hsj entries]
    refine ⟨rfl, ?_, ?_, ?_, rfl, ?_⟩
    · exact dictGet?_dictSet_self _ _ _
    · intro pre old post hdecomp hpre hold
      constructor
      · rw [hdecomp]
        exact upsertNote_replace pre post old note hpre hold
      · rw [hdecomp, upsertNote_replace pre post old note hpre hold]
        simp
    · intro hfresh
      exact upsertNote_of_fresh journal.notes note hfresh
    · exact dictGet?_dictSet_self _ _ _
/-- **C5, witness** — on the concrete journal `"j3"` holding `noteA`: saving
`noteA2` (same id) replaces it in place, leaving a one-note sequence; saving
`noteB` (fresh id) appends it; a missing journal id and an owner mismatch both
return `False` and leave the state untouched. -/
theorem save_note_upsert_witness :
    (ScribeDB.save_note stateWithNote noteA2 "j3").result = .ok true ∧
    dictGet? (journalsOf (ScribeDB.save_note stateWithNote noteA2 "j3").state.data) "j3" =
      some (Journal.to_dict { journalWithNote with notes := [noteA2] }) ∧
    (ScribeDB.save_note stateWithNote noteB "j3").result = .ok true ∧
    dictGet? (journalsOf (ScribeDB.save_note stateWithNote noteB "j3").state.data) "j3" =
      some (Journal.to_dict { journalWithNote with notes := [noteA, noteB] }) ∧
    ScribeDB.save_note stateWithNote noteB "missing" = ⟨.ok false, stateWithNote, []⟩ ∧
    ScribeDB.save_note stateWithNote noteB "j3" (some "u2") =
      ⟨.ok false, stateWithNote, []⟩ := by
  have hrepl := (save_note_upsert stateWithNote noteA2 [] "j3" none rfl).2
    journalWithNote (by decide) (by decide)
  have happ := (save_note_upsert stateWithNote noteB [] "j3" none rfl).2
    journalWithNote (by decide) (by decide)
  have hmiss := (save_note_upsert stateWithNote noteB [] "missing" none rfl).1 (by decide)
  have hmismatch := (save_note_upsert stateWithNote noteB [] "j3" (some "u2") rfl).1 (by decide)
  refine ⟨hrepl.1, ?_, happ.1, ?_, hmiss.1, hmismatch.1⟩
  · have h2 := hrepl.2.1
    rw [(by decide : ScribeDB.upsertNote journalWithNote.notes noteA2 = [noteA2])] at h2
    exact h2
  · have h2 := happ.2.1
    rw [(by decide : ScribeDB.upsertNote journalWithNote.notes noteB = [noteA, noteB])] at h2
    exact h2

/-- **C5, counterexample** — `save_entries` does *not* upsert-by-ID: on the
concrete journal `"j3"` holding `noteA` (id `"n1"`), `save_entries` with the
one-element list `[noteB]` (fresh id `"n2"`) succeeds but stores the journal
with notes exactly `[noteB]` — `noteA` is dropped and no longer retrievable,
and the stored sequence differs from the upsert-by-ID result (which would
have appended the fresh note, keeping `noteA` in place and growing the
sequence to two notes), because `database.py` line 341 assigns
`journal.notes = notes` wholesale. -/
theorem save_entries_drops_absent_notes :
    ScribeDB.retrieve_note stateWithNote.data "j3" "n1" = some noteA ∧
    (ScribeDB.save_entries stateWithNote "j3" [noteB]).result = .ok true ∧
    ScribeDB.retrieve_note (ScribeDB.save_entries stateWithNote "j3" [noteB]).state.data
        "j3" "n1" = none ∧
    dictGet? (journalsOf (ScribeDB.save_entries stateWithNote "j3" [noteB]).state.data) "j3" =
      some (Journal.to_dict { journalWithNote with notes := [noteB] }) ∧
    Journal.to_dict { journalWithNote with notes := [noteB] } ≠
      Journal.to_dict { journalWithNote with
        notes := ScribeDB.upsertNote journalWithNote.notes noteB } := by
  decide
